import Mathlib

/-!
Shallow embedding of the blobs physics simulation (src/src/main.rs).
The `f32` arithmetic of the source is idealised as real arithmetic; all
definitions mirror the Rust source line by line.  Rendering, the event
loop and mouse polling are out of scope; the mouse position consumed by
`Blob.update` becomes an explicit parameter.
-/

namespace Blobs

/-- 2D vector over ℝ, modelling nalgebra's `Vector2<f32>`. -/
@[ext]
structure Vec2 where
  x : ℝ
  y : ℝ

/-- nalgebra `Point2<f32>`; points and vectors share the representation. -/
abbrev Point2 := Vec2

instance : Add Vec2 :=
  ⟨fun a b => ⟨a.x + b.x, a.y + b.y⟩⟩

instance : Sub Vec2 :=
  ⟨fun a b => ⟨a.x - b.x, a.y - b.y⟩⟩

instance : Neg Vec2 :=
  ⟨fun a => ⟨-a.x, -a.y⟩⟩

instance : SMul ℝ Vec2 :=
  ⟨fun c v => ⟨c * v.x, c * v.y⟩⟩

instance : Zero Vec2 :=
  ⟨⟨0, 0⟩⟩

/-- `Vector2::zeros()`. -/
def Vec2.zeros : Vec2 := ⟨0, 0⟩

/-- `Vector2::x()`, the unit vector along the x axis. -/
def Vec2.unitX : Vec2 := ⟨1, 0⟩

/-- `Vector2::y()`, the unit vector along the y axis. -/
def Vec2.unitY : Vec2 := ⟨0, 1⟩

/-- nalgebra `dot`. -/
def Vec2.dot (a b : Vec2) : ℝ := a.x * b.x + a.y * b.y

/-- nalgebra `norm`: the Euclidean norm. -/
noncomputable def Vec2.norm (v : Vec2) : ℝ := Real.sqrt (v.dot v)

/-- nalgebra `normalize`: `v / |v|` (undefined-at-zero idealised as `0`). -/
noncomputable def Vec2.normalize (v : Vec2) : Vec2 := (1 / v.norm) • v

/-- `SPRING_CONST` (physical spring constant divided by blob mass). -/
def SPRING_CONST : ℝ := 20

/-- `SPRING_EQ_LEN`: natural length of the hook spring. -/
def SPRING_EQ_LEN : ℝ := 40

/-- `DAMPING_CONST`: linear drag coefficient. -/
def DAMPING_CONST : ℝ := 0.01

/-- `G`: gravity acceleration, along screen-down `(0, 1)`. -/
def G : ℝ := 10

/-- `HOOK_TRAVELING_SPEED`. -/
def HOOK_TRAVELING_SPEED : ℝ := 150

/-- `BLOB_RADIUS`. -/
def BLOB_RADIUS : ℝ := 40

/-- `SCREEN_SIZE`: arena width and height. -/
def SCREEN_SIZE : ℝ × ℝ := (1000, 1000)

/-- The fixed timestep hardcoded at the top of `Blob::update`. -/
def dt : ℝ := 0.1

/-- `enum HookState`.  The spec calls `Hooked` "Anchored" and `None`
"Detached". -/
inductive HookState where
  | Hooked : Point2 → HookState
  | Traveling : Point2 → Vec2 → HookState
  | None : HookState

/-- `struct Blob`. -/
structure Blob where
  center : Point2
  vel : Vec2
  aim_vec : Vec2
  hook : HookState

/-- `wall_blob_collision`: collision of the circular body against the four
walls, returning the collision point and wall normal. -/
noncomputable def wall_blob_collision (blob_center : Point2) :
    Option (Point2 × Vec2) :=
  let x := blob_center.x
  let y := blob_center.y
  if x < BLOB_RADIUS then
    some (⟨0, y⟩, Vec2.unitX)
  else if x > SCREEN_SIZE.1 - BLOB_RADIUS then
    some (⟨SCREEN_SIZE.1, y⟩, -Vec2.unitX)
  else if y < BLOB_RADIUS then
    some (⟨x, 0⟩, Vec2.unitY)
  else if y > SCREEN_SIZE.2 - BLOB_RADIUS then
    some (⟨x, SCREEN_SIZE.2⟩, -Vec2.unitY)
  else
    none

/-- `wall_point_collision`: collision of a point against the four walls,
returning the collision point. -/
noncomputable def wall_point_collision (p : Point2) : Option Point2 :=
  let x := p.x
  let y := p.y
  if x < 0 then
    some ⟨0, y⟩
  else if x > SCREEN_SIZE.1 then
    some ⟨SCREEN_SIZE.1, y⟩
  else if y < 0 then
    some ⟨x, 0⟩
  else if y > SCREEN_SIZE.2 then
    some ⟨x, SCREEN_SIZE.2⟩
  else
    none

/-- The `acc_spring` local of `Blob::update`. -/
noncomputable def Blob.acc_spring (b : Blob) : Vec2 :=
  match b.hook with
  | HookState.Hooked hook_point =>
      let spring_vec := hook_point - b.center
      ((if spring_vec.norm < SPRING_EQ_LEN then 0
        else (spring_vec.norm - SPRING_EQ_LEN) / spring_vec.norm / spring_vec.norm)
        * SPRING_CONST) • spring_vec
  | _ => Vec2.zeros

/-- The `acc_damping` local of `Blob::update`: `-DAMPING_CONST * vel`. -/
noncomputable def Blob.acc_damping (b : Blob) : Vec2 :=
  (-DAMPING_CONST) • b.vel

/-- The `acc_gravity` local of `Blob::update`: `G * Vector2::y()`. -/
noncomputable def acc_gravity : Vec2 := G • Vec2.unitY

/-- The `acc_tot` local of `Blob::update`. -/
noncomputable def Blob.acc_tot (b : Blob) : Vec2 :=
  b.acc_spring + acc_gravity + b.acc_damping

/-- `Blob::update`: one physics tick.  The mouse position read from the
context is passed explicitly; the `GameResult` wrapper carries no
information and is dropped. -/
noncomputable def Blob.update (b : Blob) (mouse_pos : Point2) : Blob :=
  let vel1 := b.vel + dt • b.acc_tot
  let center1 := b.center + dt • vel1
  let vel2 :=
    match wall_blob_collision center1 with
    | some (_, collision_normal) =>
        vel1 - (2 * vel1.dot collision_normal) • collision_normal
    | none => vel1
  let hook1 :=
    match b.hook with
    | HookState.Traveling hook_point hook_vel =>
        match wall_point_collision (hook_point + dt • hook_vel) with
        | some collision_point => HookState.Hooked collision_point
        | none => HookState.Traveling (hook_point + dt • hook_vel) hook_vel
    | h => h
  { center := center1
    vel := vel2
    aim_vec := (mouse_pos - center1).normalize
    hook := hook1 }

/-- The set of points on the four arena boundary edges, written exactly as
claim C7 puts it (`c.x ∈ \x7b0,W\x7d` with `c.y ∈ [0,H]`, or `c.y ∈ \x7b0,H\x7d`
with `c.x ∈ [0,W]`).  Stated from the spec in order to compare the
collision routine against it. -/
def onArenaEdge (c : Point2) : Prop :=
  ((c.x = 0 ∨ c.x = SCREEN_SIZE.1) ∧ 0 ≤ c.y ∧ c.y ≤ SCREEN_SIZE.2) ∨
  ((c.y = 0 ∨ c.y = SCREEN_SIZE.2) ∧ 0 ≤ c.x ∧ c.x ≤ SCREEN_SIZE.1)

/-- A fixed mouse position used for concrete evaluations. -/
def mouse0 : Point2 := ⟨500, 500⟩

/-- A concrete detached blob resting mid-arena. -/
noncomputable def blobDetached : Blob :=
  { center := ⟨500, 500⟩, vel := Vec2.zeros, aim_vec := Vec2.unitX
    hook := HookState.None }

/-- A concrete blob whose hook is traveling far from any wall. -/
noncomputable def blobTravelMid : Blob :=
  { center := ⟨500, 500⟩, vel := Vec2.zeros, aim_vec := Vec2.unitX
    hook := HookState.Traveling ⟨100, 100⟩ ⟨10, 0⟩ }

/-- A concrete blob whose hook is traveling at `(1005, 500)` with zero
velocity (spec scenario C8). -/
noncomputable def blobTravelOut : Blob :=
  { center := ⟨500, 500⟩, vel := Vec2.zeros, aim_vec := Vec2.unitX
    hook := HookState.Traveling ⟨1005, 500⟩ ⟨0, 0⟩ }

/-- A concrete blob whose hook is traveling at `(1005, 500)` with velocity
`(-100, 0)`, heading back into the arena. -/
noncomputable def blobTravelBack : Blob :=
  { center := ⟨500, 500⟩, vel := Vec2.zeros, aim_vec := Vec2.unitX
    hook := HookState.Traveling ⟨1005, 500⟩ ⟨-100, 0⟩ }

/-- The spec's numeric scenario (C9): blob at `(100,100)` at rest, hooked
at `(400, 0)` (this is also the first blob of `GameState::new`). -/
noncomputable def blobScenario : Blob :=
  { center := ⟨100, 100⟩, vel := Vec2.zeros, aim_vec := Vec2.unitX
    hook := HookState.Hooked ⟨400, 0⟩ }

/-- A concrete blob hooked exactly at its own center (C10 degenerate
case). -/
noncomputable def blobSelfHooked : Blob :=
  { center := ⟨500, 500⟩, vel := Vec2.zeros, aim_vec := Vec2.unitX
    hook := HookState.Hooked ⟨500, 500⟩ }

@[simp]
theorem Vec2.add_x (a b : Vec2) : (a + b).x = a.x + b.x := rfl

@[simp]
theorem Vec2.add_y (a b : Vec2) : (a + b).y = a.y + b.y := rfl

@[simp]
theorem Vec2.sub_x (a b : Vec2) : (a - b).x = a.x - b.x := rfl

@[simp]
theorem Vec2.sub_y (a b : Vec2) : (a - b).y = a.y - b.y := rfl

@[simp]
theorem Vec2.neg_x (a : Vec2) : (-a).x = -a.x := rfl

@[simp]
theorem Vec2.neg_y (a : Vec2) : (-a).y = -a.y := rfl

@[simp]
theorem Vec2.smul_x (c : ℝ) (v : Vec2) : (c • v).x = c * v.x := rfl

@[simp]
theorem Vec2.smul_y (c : ℝ) (v : Vec2) : (c • v).y = c * v.y := rfl

@[simp]
theorem Vec2.zeros_x : Vec2.zeros.x = 0 := rfl

@[simp]
theorem Vec2.zeros_y : Vec2.zeros.y = 0 := rfl

@[simp]
theorem Vec2.mk_x (a b : ℝ) : (Vec2.mk a b).x = a := rfl

@[simp]
theorem Vec2.mk_y (a b : ℝ) : (Vec2.mk a b).y = b := rfl

theorem Vec2.norm_mk (a b : ℝ) :
    (Vec2.mk a b).norm = Real.sqrt (a * a + b * b) := rfl

/-- C1: per tick, the spring acceleration is the zero vector when the hook
is Detached (`None`) or Traveling, the zero vector when the hook is
Anchored (`Hooked`) at `p` with `|p - center| < SPRING_EQ_LEN`, and
`SPRING_CONST * (len - SPRING_EQ_LEN) / len^2 • d` with `d = p - center`,
`len = |d|`, when the hook is Anchored at `p` with
`len ≥ SPRING_EQ_LEN`. -/
theorem C1_spring_acceleration (b : Blob) :
    (b.hook = HookState.None → b.acc_spring = Vec2.zeros) ∧
    (∀ p v, b.hook = HookState.Traveling p v → b.acc_spring = Vec2.zeros) ∧
    (∀ p, b.hook = HookState.Hooked p →
      ((p - b.center).norm < SPRING_EQ_LEN → b.acc_spring = Vec2.zeros) ∧
      (SPRING_EQ_LEN ≤ (p - b.center).norm →
        b.acc_spring =
          (SPRING_CONST * ((p - b.center).norm - SPRING_EQ_LEN)
              / (p - b.center).norm ^ 2) • (p - b.center))) := by
  refine ⟨fun h => by simp [Blob.acc_spring, h],
    fun p v h => by simp [Blob.acc_spring, h],
    fun p h => ⟨fun hlen => ?_, fun hlen => ?_⟩⟩
  · simp only [Blob.acc_spring, h]
    rw [if_pos hlen]
    ext <;> simp
  · simp only [Blob.acc_spring, h]
    rw [if_neg (not_lt.mpr hlen)]
    have hne : (p - b.center).norm ≠ 0 := by
      intro h0
      rw [h0] at hlen
      simp [SPRING_EQ_LEN] at hlen
      linarith
    have hs : ((p - b.center).norm - SPRING_EQ_LEN) / (p - b.center).norm
          / (p - b.center).norm * SPRING_CONST
        = SPRING_CONST * ((p - b.center).norm - SPRING_EQ_LEN)
          / (p - b.center).norm ^ 2 := by
      field_simp
      ring
    rw [hs]

/-- Witness for C1: the detached concrete blob has zero spring
acceleration. -/
theorem C1_spring_acceleration_witness :
    blobDetached.acc_spring = Vec2.zeros :=
  (C1_spring_acceleration blobDetached).1 rfl

/-- C2: the update is semi-implicit Euler: the new center equals
`center + (vel + acc_tot * dt) * dt` (position uses the freshly updated
velocity), which differs from the explicit-Euler `center + vel * dt`
whenever the total acceleration is nonzero. -/
theorem C2_semi_implicit_euler (b : Blob) (mouse_pos : Point2) :
    (b.update mouse_pos).center = b.center + dt • (b.vel + dt • b.acc_tot) ∧
    (b.acc_tot ≠ Vec2.zeros →
      (b.update mouse_pos).center ≠ b.center + dt • b.vel) := by
  constructor
  · rfl
  · intro hacc heq
    have hc : (b.update mouse_pos).center
        = b.center + dt • (b.vel + dt • b.acc_tot) := rfl
    rw [hc] at heq
    have hx := congrArg Vec2.x heq
    have hy := congrArg Vec2.y heq
    simp only [Vec2.add_x, Vec2.add_y, Vec2.smul_x, Vec2.smul_y, dt] at hx hy
    apply hacc
    ext
    · show b.acc_tot.x = Vec2.zeros.x
      simp only [Vec2.zeros_x]
      linarith
    · show b.acc_tot.y = Vec2.zeros.y
      simp only [Vec2.zeros_y]
      linarith

/-- Witness for C2: the concrete detached blob has nonzero total
acceleration (gravity), and its updated center indeed uses the updated
velocity. -/
theorem C2_semi_implicit_euler_witness :
    (blobDetached.update mouse0).center
        = blobDetached.center + dt • (blobDetached.vel + dt • blobDetached.acc_tot) ∧
    (blobDetached.update mouse0).center ≠ blobDetached.center + dt • blobDetached.vel := by
  refine ⟨(C2_semi_implicit_euler blobDetached mouse0).1,
    (C2_semi_implicit_euler blobDetached mouse0).2 ?_⟩
  intro h
  have hy := congrArg Vec2.y h
  norm_num [Blob.acc_tot, Blob.acc_spring, Blob.acc_damping, acc_gravity,
    blobDetached, Vec2.zeros, Vec2.unitY, G, DAMPING_CONST] at hy

/-- C3: a traveling hook is advanced by `velocity * dt`; if the advanced
tip collides with a wall the hook becomes Anchored (`Hooked`) at the
contact point, otherwise it stays Traveling at the advanced tip with the
same velocity. -/
theorem C3_hook_travel (b : Blob) (mouse_pos : Point2) (tip : Point2) (v : Vec2)
    (h : b.hook = HookState.Traveling tip v) :
    (∀ c, wall_point_collision (tip + dt • v) = some c →
      (b.update mouse_pos).hook = HookState.Hooked c) ∧
    (wall_point_collision (tip + dt • v) = none →
      (b.update mouse_pos).hook = HookState.Traveling (tip + dt • v) v) := by
  constructor
  · intro c hc
    simp [Blob.update, h, hc]
  · intro hc
    simp [Blob.update, h, hc]

/-- Witness for C3: the mid-arena traveling hook advances from `(100,100)`
by `(1, 0)` and stays Traveling. -/
theorem C3_hook_travel_witness :
    (blobTravelMid.update mouse0).hook
      = HookState.Traveling ((⟨100, 100⟩ : Point2) + dt • (⟨10, 0⟩ : Vec2)) ⟨10, 0⟩ := by
  apply (C3_hook_travel blobTravelMid mouse0 ⟨100, 100⟩ ⟨10, 0⟩ rfl).2
  norm_num [wall_point_collision, dt, SCREEN_SIZE]

/-- C4: whenever the body-vs-walls query reports a collision with normal
`n`, the reflected velocity `v - 2 (v ⬝ n) n` has the same Euclidean norm
as `v`. -/
theorem C4_reflection_preserves_speed (c p : Point2) (n v : Vec2)
    (h : wall_blob_collision c = some (p, n)) :
    (v - (2 * v.dot n) • n).norm = v.norm := by
  have hn : n.x * n.x + n.y * n.y = 1 := by
    simp only [wall_blob_collision] at h
    split_ifs at h <;>
      (rw [Option.some.injEq, Prod.mk.injEq] at h
       rw [← h.2]
       norm_num [Vec2.unitX, Vec2.unitY])
  have key : (v - (2 * v.dot n) • n).dot (v - (2 * v.dot n) • n) = v.dot v := by
    simp only [Vec2.dot, Vec2.sub_x, Vec2.sub_y, Vec2.smul_x, Vec2.smul_y]
    linear_combination (4 * (v.x * n.x + v.y * n.y) ^ 2) * hn
  unfold Vec2.norm
  rw [key]

/-- Witness for C4: the spec scenario at `x = 10` with `v = (-5, 0)`; the
left wall reports normal `(1,0)` and the reflection keeps the speed. -/
theorem C4_reflection_preserves_speed_witness :
    ((⟨-5, 0⟩ : Vec2) - (2 * Vec2.dot ⟨-5, 0⟩ Vec2.unitX) • Vec2.unitX).norm
      = (⟨-5, 0⟩ : Vec2).norm := by
  apply C4_reflection_preserves_speed ⟨10, 500⟩ ⟨0, 500⟩ Vec2.unitX ⟨-5, 0⟩
  norm_num [wall_blob_collision, BLOB_RADIUS]

/-- C5: the wall-collision response only touches the velocity: the updated
center always equals the integrated center (never corrected out of the
wall), and without a reported collision the velocity keeps its integrated
value. -/
theorem C5_collision_touches_only_velocity (b : Blob) (mouse_pos : Point2) :
    (b.update mouse_pos).center = b.center + dt • (b.vel + dt • b.acc_tot) ∧
    (wall_blob_collision (b.center + dt • (b.vel + dt • b.acc_tot)) = none →
      (b.update mouse_pos).vel = b.vel + dt • b.acc_tot) := by
  refine ⟨rfl, fun hnone => ?_⟩
  simp [Blob.update, hnone]

/-- Witness for C5: the concrete detached blob reports no collision and
its velocity keeps the integrated value. -/
theorem C5_collision_touches_only_velocity_witness :
    (blobDetached.update mouse0).vel = blobDetached.vel + dt • blobDetached.acc_tot := by
  apply (C5_collision_touches_only_velocity blobDetached mouse0).2
  have hacc : blobDetached.acc_tot = (⟨0, 10⟩ : Vec2) := by
    ext <;>
      norm_num [Blob.acc_tot, Blob.acc_spring, Blob.acc_damping, acc_gravity,
        blobDetached, Vec2.zeros, Vec2.unitY, G, DAMPING_CONST]
  rw [hacc]
  norm_num [wall_blob_collision, dt, blobDetached, Vec2.zeros, BLOB_RADIUS, SCREEN_SIZE]

theorem Vec2.neg_unitX : -Vec2.unitX = (⟨-1, 0⟩ : Vec2) := by
  ext <;> simp [Vec2.unitX]

theorem Vec2.neg_unitY : -Vec2.unitY = (⟨0, -1⟩ : Vec2) := by
  ext <;> simp [Vec2.unitY]

/-- C6: the body-vs-walls query checks the four walls in priority order
(left, right, top, bottom), returns `none` exactly when no check fires,
and otherwise returns the matched wall's contact point with the
unit normal pointing into the arena: `(1,0)`, `(-1,0)`, `(0,1)`,
`(0,-1)` respectively. -/
theorem C6_wall_blob_collision_spec (c : Point2) :
    (wall_blob_collision c = none ↔
      BLOB_RADIUS ≤ c.x ∧ c.x ≤ SCREEN_SIZE.1 - BLOB_RADIUS ∧
      BLOB_RADIUS ≤ c.y ∧ c.y ≤ SCREEN_SIZE.2 - BLOB_RADIUS) ∧
    (c.x < BLOB_RADIUS →
      wall_blob_collision c = some (⟨0, c.y⟩, ⟨1, 0⟩)) ∧
    (¬ c.x < BLOB_RADIUS → c.x > SCREEN_SIZE.1 - BLOB_RADIUS →
      wall_blob_collision c = some (⟨SCREEN_SIZE.1, c.y⟩, ⟨-1, 0⟩)) ∧
    (¬ c.x < BLOB_RADIUS → ¬ c.x > SCREEN_SIZE.1 - BLOB_RADIUS →
      c.y < BLOB_RADIUS →
      wall_blob_collision c = some (⟨c.x, 0⟩, ⟨0, 1⟩)) ∧
    (¬ c.x < BLOB_RADIUS → ¬ c.x > SCREEN_SIZE.1 - BLOB_RADIUS →
      ¬ c.y < BLOB_RADIUS → c.y > SCREEN_SIZE.2 - BLOB_RADIUS →
      wall_blob_collision c = some (⟨c.x, SCREEN_SIZE.2⟩, ⟨0, -1⟩)) ∧
    (∀ p n, wall_blob_collision c = some (p, n) → n.norm = 1) := by
  refine ⟨⟨fun hnone => ?_, fun hin => ?_⟩, fun h1 => ?_, fun h1 h2 => ?_,
    fun h1 h2 h3 => ?_, fun h1 h2 h3 h4 => ?_, fun p n h => ?_⟩
  · simp only [wall_blob_collision] at hnone
    split_ifs at hnone with h1 h2 h3 h4
    exact ⟨not_lt.mp h1, not_lt.mp h2, not_lt.mp h3, not_lt.mp h4⟩
  · obtain ⟨ha, hb, hc', hd⟩ := hin
    simp only [wall_blob_collision]
    rw [if_neg (not_lt.mpr ha), if_neg (not_lt.mpr hb),
      if_neg (not_lt.mpr hc'), if_neg (not_lt.mpr hd)]
  · simp only [wall_blob_collision]
    rw [if_pos h1]
    rfl
  · simp only [wall_blob_collision]
    rw [if_neg h1, if_pos h2, Vec2.neg_unitX]
  · simp only [wall_blob_collision]
    rw [if_neg h1, if_neg h2, if_pos h3]
    rfl
  · simp only [wall_blob_collision]
    rw [if_neg h1, if_neg h2, if_neg h3, if_pos h4, Vec2.neg_unitY]
  · simp only [wall_blob_collision] at h
    split_ifs at h <;>
      rw [Option.some.injEq, Prod.mk.injEq] at h <;>
      rw [← h.2] <;>
      norm_num [Vec2.norm, Vec2.dot, Vec2.unitX, Vec2.unitY, Real.sqrt_one]

/-- Witness for C6: a center at `x = 10` hits the left wall with contact
`(0, 500)` and normal `(1, 0)`. -/
theorem C6_wall_blob_collision_spec_witness :
    wall_blob_collision ⟨10, 500⟩ = some (⟨0, 500⟩, ⟨1, 0⟩) :=
  (C6_wall_blob_collision_spec ⟨10, 500⟩).2.1 (by norm_num [BLOB_RADIUS])

/-- Counterexample to C7: at `p = (-1, 1001)` the point-vs-walls query
clamps only the x coordinate and returns `(0, 1001)`, which lies on none
of the four boundary edges. -/
theorem C7_counterexample :
    wall_point_collision ⟨-1, 1001⟩ = some ⟨0, 1001⟩ ∧
    ¬ onArenaEdge ⟨0, 1001⟩ := by
  constructor
  · simp only [wall_point_collision]
    rw [if_pos (by norm_num)]
  · norm_num [onArenaEdge, SCREEN_SIZE]

/-- C7 (amended): the point-vs-walls query tests `x < 0`, `x > W`,
`y < 0`, `y > H` in that priority order, returns `none` exactly when `p`
lies in `[0,W] × [0,H]`, and whenever it returns some contact `c`, a
single coordinate has been clamped: `c.x ∈ \x7b0, W\x7d` with `c.y = p.y`, or
`c.y ∈ \x7b0, H\x7d` with `c.x = p.x`. -/
theorem C7_wall_point_collision_spec (p : Point2) :
    (wall_point_collision p = none ↔
      0 ≤ p.x ∧ p.x ≤ SCREEN_SIZE.1 ∧ 0 ≤ p.y ∧ p.y ≤ SCREEN_SIZE.2) ∧
    (p.x < 0 → wall_point_collision p = some ⟨0, p.y⟩) ∧
    (¬ p.x < 0 → p.x > SCREEN_SIZE.1 →
      wall_point_collision p = some ⟨SCREEN_SIZE.1, p.y⟩) ∧
    (¬ p.x < 0 → ¬ p.x > SCREEN_SIZE.1 → p.y < 0 →
      wall_point_collision p = some ⟨p.x, 0⟩) ∧
    (¬ p.x < 0 → ¬ p.x > SCREEN_SIZE.1 → ¬ p.y < 0 → p.y > SCREEN_SIZE.2 →
      wall_point_collision p = some ⟨p.x, SCREEN_SIZE.2⟩) ∧
    (∀ c, wall_point_collision p = some c →
      ((c.x = 0 ∨ c.x = SCREEN_SIZE.1) ∧ c.y = p.y) ∨
      ((c.y = 0 ∨ c.y = SCREEN_SIZE.2) ∧ c.x = p.x)) := by
  refine ⟨⟨fun hnone => ?_, fun hin => ?_⟩, fun h1 => ?_, fun h1 h2 => ?_,
    fun h1 h2 h3 => ?_, fun h1 h2 h3 h4 => ?_, fun c h => ?_⟩
  · simp only [wall_point_collision] at hnone
    split_ifs at hnone with h1 h2 h3 h4
    exact ⟨not_lt.mp h1, not_lt.mp h2, not_lt.mp h3, not_lt.mp h4⟩
  · obtain ⟨ha, hb, hc', hd⟩ := hin
    simp only [wall_point_collision]
    rw [if_neg (not_lt.mpr ha), if_neg (not_lt.mpr hb),
      if_neg (not_lt.mpr hc'), if_neg (not_lt.mpr hd)]
  · simp only [wall_point_collision]
    rw [if_pos h1]
  · simp only [wall_point_collision]
    rw [if_neg h1, if_pos h2]
  · simp only [wall_point_collision]
    rw [if_neg h1, if_neg h2, if_pos h3]
  · simp only [wall_point_collision]
    rw [if_neg h1, if_neg h2, if_neg h3, if_pos h4]
  · simp only [wall_point_collision] at h
    split_ifs at h <;> rw [Option.some.injEq] at h <;> rw [← h] <;> simp

/-- Witness for C7 (amended): `p = (-1, 500)` is clamped to `(0, 500)`. -/
theorem C7_wall_point_collision_spec_witness :
    wall_point_collision ⟨-1, 500⟩ = some ⟨0, 500⟩ :=
  (C7_wall_point_collision_spec ⟨-1, 500⟩).2.1 (by norm_num)

/-- Counterexample to C8: a hook Traveling at `(1005, 500)` with velocity
`(-100, 0)` is first advanced to `(995, 500)`, which is inside the arena,
so the hook stays Traveling instead of anchoring at `(1000, 500)`. -/
theorem C8_counterexample :
    (blobTravelBack.update mouse0).hook
        = HookState.Traveling ⟨995, 500⟩ ⟨-100, 0⟩ ∧
    (blobTravelBack.update mouse0).hook ≠ HookState.Hooked ⟨1000, 500⟩ := by
  have harg : (⟨1005, 500⟩ : Point2) + dt • (⟨-100, 0⟩ : Vec2) = ⟨995, 500⟩ := by
    ext <;> norm_num [dt]
  have h : (blobTravelBack.update mouse0).hook
      = HookState.Traveling ⟨995, 500⟩ ⟨-100, 0⟩ := by
    have hcol : wall_point_collision ⟨995, 500⟩ = none := by
      norm_num [wall_point_collision, SCREEN_SIZE]
    have hh : blobTravelBack.hook
        = HookState.Traveling ⟨1005, 500⟩ ⟨-100, 0⟩ := rfl
    simp [Blob.update, hh, hcol, harg]
  exact ⟨h, by rw [h]; simp⟩

/-- C8 (amended): a hook Traveling at `(1005, 500)` whose velocity
`(vx, 0)` keeps the advanced tip beyond the right wall (`vx > -50`, so
`1005 + vx * dt > 1000`) makes the wall query report contact
`(1000, 500)` and the hook becomes Anchored (`Hooked`) there. -/
theorem C8_hook_anchors (b : Blob) (mouse_pos : Point2) (vx : ℝ)
    (h : b.hook = HookState.Traveling ⟨1005, 500⟩ ⟨vx, 0⟩) (hvx : -50 < vx) :
    wall_point_collision ((⟨1005, 500⟩ : Point2) + dt • (⟨vx, 0⟩ : Vec2))
        = some ⟨1000, 500⟩ ∧
    (b.update mouse_pos).hook = HookState.Hooked ⟨1000, 500⟩ := by
  have hcol : wall_point_collision ((⟨1005, 500⟩ : Point2)
      + dt • (⟨vx, 0⟩ : Vec2)) = some ⟨1000, 500⟩ := by
    simp only [wall_point_collision, Vec2.add_x, Vec2.add_y, Vec2.smul_x,
      Vec2.smul_y, Vec2.mk_x, Vec2.mk_y, dt, SCREEN_SIZE]
    rw [if_neg (by norm_num; nlinarith), if_pos (by norm_num; nlinarith)]
    norm_num
  refine ⟨hcol, ?_⟩
  simp [Blob.update, h, hcol]

/-- Witness for C8 (amended): the concrete hook with zero velocity anchors
at `(1000, 500)`. -/
theorem C8_hook_anchors_witness :
    wall_point_collision ((⟨1005, 500⟩ : Point2) + dt • (⟨0, 0⟩ : Vec2))
        = some ⟨1000, 500⟩ ∧
    (blobTravelOut.update mouse0).hook = HookState.Hooked ⟨1000, 500⟩ :=
  C8_hook_anchors blobTravelOut mouse0 0 rfl (by norm_num)

theorem sqrt_ten_sq : Real.sqrt 10 ^ 2 = 10 :=
  Real.sq_sqrt (by norm_num)

theorem sqrt_ten_gt : 3.1622 < Real.sqrt 10 := by
  nlinarith [sqrt_ten_sq, Real.sqrt_nonneg 10]

theorem sqrt_ten_lt : Real.sqrt 10 < 3.1623 := by
  nlinarith [sqrt_ten_sq, Real.sqrt_nonneg 10]

/-- The spring displacement of the C9 scenario has norm `100 √10`. -/
theorem norm_spring_vec : Vec2.norm ⟨300, -100⟩ = 100 * Real.sqrt 10 := by
  rw [Vec2.norm_mk]
  rw [show (300 : ℝ) * 300 + -100 * -100 = 100 ^ 2 * 10 by norm_num]
  rw [Real.sqrt_mul (by norm_num), Real.sqrt_sq (by norm_num)]

theorem blobScenario_spring_vec :
    (⟨400, 0⟩ : Point2) - blobScenario.center = (⟨300, -100⟩ : Vec2) := by
  ext <;> norm_num [blobScenario]

theorem blobScenario_acc_spring :
    blobScenario.acc_spring
      = ⟨6 * Real.sqrt 10 - 12 / 5, 4 / 5 - 2 * Real.sqrt 10⟩ := by
  have hhook : blobScenario.hook = HookState.Hooked ⟨400, 0⟩ := rfl
  have hne40 : ¬ Vec2.norm ⟨300, -100⟩ < SPRING_EQ_LEN := by
    rw [norm_spring_vec, SPRING_EQ_LEN]
    push_neg
    nlinarith [sqrt_ten_gt]
  have hd : (100 * Real.sqrt 10) * (100 * Real.sqrt 10) = 100000 := by
    nlinarith [sqrt_ten_sq]
  simp only [Blob.acc_spring, hhook, blobScenario_spring_vec]
  rw [if_neg hne40, norm_spring_vec, SPRING_EQ_LEN, SPRING_CONST]
  ext
  · simp only [Vec2.smul_x, Vec2.mk_x]
    rw [div_div, hd]
    ring
  · simp only [Vec2.smul_y, Vec2.mk_y]
    rw [div_div, hd]
    ring

theorem blobScenario_acc_tot :
    blobScenario.acc_tot
      = ⟨6 * Real.sqrt 10 - 12 / 5, 54 / 5 - 2 * Real.sqrt 10⟩ := by
  rw [Blob.acc_tot, blobScenario_acc_spring]
  ext
  · simp [Blob.acc_damping, acc_gravity, blobScenario, Vec2.zeros, Vec2.unitY,
      G, DAMPING_CONST]
  · simp [Blob.acc_damping, acc_gravity, blobScenario, Vec2.zeros, Vec2.unitY,
      G, DAMPING_CONST]
    ring

theorem blobScenario_no_wall :
    wall_blob_collision
      (blobScenario.center + dt • (blobScenario.vel + dt • blobScenario.acc_tot))
        = none := by
  have hc : blobScenario.center + dt • (blobScenario.vel + dt • blobScenario.acc_tot)
      = ⟨100 - 3 / 125 + 3 / 50 * Real.sqrt 10,
         100 + 27 / 250 - 1 / 50 * Real.sqrt 10⟩ := by
    rw [blobScenario_acc_tot]
    ext <;> simp [blobScenario, dt, Vec2.zeros] <;> ring
  rw [hc]
  simp only [wall_blob_collision, Vec2.mk_x, Vec2.mk_y, BLOB_RADIUS, SCREEN_SIZE]
  rw [if_neg (by push_neg; nlinarith [sqrt_ten_gt, sqrt_ten_lt]),
    if_neg (by push_neg; nlinarith [sqrt_ten_gt, sqrt_ten_lt]),
    if_neg (by push_neg; nlinarith [sqrt_ten_gt, sqrt_ten_lt]),
    if_neg (by push_neg; nlinarith [sqrt_ten_gt, sqrt_ten_lt])]

theorem blobScenario_vel :
    (blobScenario.update mouse0).vel
      = ⟨3 / 5 * Real.sqrt 10 - 6 / 25, 27 / 25 - 1 / 5 * Real.sqrt 10⟩ := by
  have hv : (blobScenario.update mouse0).vel
      = blobScenario.vel + dt • blobScenario.acc_tot := by
    simp [Blob.update, blobScenario_no_wall]
  rw [hv, blobScenario_acc_tot]
  ext <;> simp [blobScenario, dt, Vec2.zeros] <;> ring

/-- Counterexample to C9: after one tick of the spec scenario the y
component of the velocity is positive (about `+0.448`), not the claimed
`≈ -0.087`. -/
theorem C9_counterexample :
    (blobScenario.update mouse0).vel.y ≠ -0.087 ∧
    0.44 < (blobScenario.update mouse0).vel.y ∧
    (blobScenario.update mouse0).vel.y < 0.45 := by
  rw [blobScenario_vel]
  simp only [Vec2.mk_y]
  refine ⟨?_, by nlinarith [sqrt_ten_lt], by nlinarith [sqrt_ten_gt]⟩
  intro h
  nlinarith [sqrt_ten_lt, sqrt_ten_gt]

/-- C9 (amended): in the spec scenario the spring displacement is
`(300, -100)` of length `100 √10 ≈ 316.23`; the damping acceleration is
zero and the net acceleration is the spring acceleration plus gravity
`(0, 10)`; the spring acceleration points along the displacement with
magnitude `20 - 0.8 √10 ≈ 17.47`; the resulting velocity is
`(0.6 √10 - 0.24, 1.08 - 0.2 √10) ≈ (1.657, +0.448)` (the y component is
positive). -/
theorem C9_scenario_tick :
    (⟨400, 0⟩ : Point2) - blobScenario.center = (⟨300, -100⟩ : Vec2) ∧
    316.22 < ((⟨400, 0⟩ : Point2) - blobScenario.center).norm ∧
    ((⟨400, 0⟩ : Point2) - blobScenario.center).norm < 316.23 ∧
    blobScenario.acc_damping = Vec2.zeros ∧
    blobScenario.acc_tot = blobScenario.acc_spring + acc_gravity ∧
    acc_gravity = (⟨0, 10⟩ : Vec2) ∧
    blobScenario.acc_spring
      = (Real.sqrt 10 / 50 - 1 / 125) • (⟨300, -100⟩ : Vec2) ∧
    0 < Real.sqrt 10 / 50 - 1 / 125 ∧
    17.47 < blobScenario.acc_spring.norm ∧
    blobScenario.acc_spring.norm < 17.48 ∧
    (blobScenario.update mouse0).vel
      = ⟨3 / 5 * Real.sqrt 10 - 6 / 25, 27 / 25 - 1 / 5 * Real.sqrt 10⟩ ∧
    1.65 < (blobScenario.update mouse0).vel.x ∧
    (blobScenario.update mouse0).vel.x < 1.66 ∧
    0.44 < (blobScenario.update mouse0).vel.y ∧
    (blobScenario.update mouse0).vel.y < 0.45 := by
  have hdamp : blobScenario.acc_damping = Vec2.zeros := by
    ext <;> simp [Blob.acc_damping, blobScenario, Vec2.zeros]
  have hnorm_acc : blobScenario.acc_spring.norm = 20 - 0.8 * Real.sqrt 10 := by
    rw [blobScenario_acc_spring, Vec2.norm_mk]
    rw [show (6 * Real.sqrt 10 - 12 / 5) * (6 * Real.sqrt 10 - 12 / 5)
          + (4 / 5 - 2 * Real.sqrt 10) * (4 / 5 - 2 * Real.sqrt 10)
        = (20 - 0.8 * Real.sqrt 10) ^ 2 by nlinarith [sqrt_ten_sq]]
    exact Real.sqrt_sq (by nlinarith [sqrt_ten_lt])
  refine ⟨blobScenario_spring_vec, ?_, ?_, hdamp, ?_, ?_, ?_, ?_, ?_, ?_,
    blobScenario_vel, ?_, ?_, ?_, ?_⟩
  · rw [blobScenario_spring_vec, norm_spring_vec]
    nlinarith [sqrt_ten_gt]
  · rw [blobScenario_spring_vec, norm_spring_vec]
    nlinarith [sqrt_ten_lt]
  · rw [Blob.acc_tot, hdamp]
    ext <;> simp
  · ext <;> simp [acc_gravity, G, Vec2.unitY]
  · rw [blobScenario_acc_spring]
    ext <;> simp <;> ring
  · nlinarith [sqrt_ten_gt]
  · rw [hnorm_acc]
    nlinarith [sqrt_ten_lt]
  · rw [hnorm_acc]
    nlinarith [sqrt_ten_gt]
  · rw [blobScenario_vel]
    simp only [Vec2.mk_x]
    nlinarith [sqrt_ten_gt]
  · rw [blobScenario_vel]
    simp only [Vec2.mk_x]
    nlinarith [sqrt_ten_lt]
  · rw [blobScenario_vel]
    simp only [Vec2.mk_y]
    nlinarith [sqrt_ten_lt]
  · rw [blobScenario_vel]
    simp only [Vec2.mk_y]
    nlinarith [sqrt_ten_gt]

/-- C10: with the hook Anchored exactly at the blob's center, the spring
displacement is the zero vector, its norm `0` is below `SPRING_EQ_LEN`,
so the zero branch fires before the division by the displacement length
and the spring acceleration is exactly zero. -/
theorem C10_zero_length_spring (b : Blob) (p : Point2)
    (h : b.hook = HookState.Hooked p) (hp : p = b.center) :
    p - b.center = Vec2.zeros ∧
    (p - b.center).norm < SPRING_EQ_LEN ∧
    b.acc_spring = Vec2.zeros := by
  have hz : p - b.center = Vec2.zeros := by
    rw [hp]
    ext <;> simp
  have hn : (p - b.center).norm = 0 := by
    rw [hz]
    simp [Vec2.norm, Vec2.dot, Vec2.zeros]
  refine ⟨hz, by rw [hn]; norm_num [SPRING_EQ_LEN], ?_⟩
  simp only [Blob.acc_spring, h]
  rw [if_pos (by rw [hn]; norm_num [SPRING_EQ_LEN])]
  ext <;> simp

/-- Witness for C10: the concrete blob hooked at its own center. -/
theorem C10_zero_length_spring_witness :
    ((⟨500, 500⟩ : Point2) - blobSelfHooked.center = Vec2.zeros) ∧
    ((⟨500, 500⟩ : Point2) - blobSelfHooked.center).norm < SPRING_EQ_LEN ∧
    blobSelfHooked.acc_spring = Vec2.zeros :=
  C10_zero_length_spring blobSelfHooked ⟨500, 500⟩ rfl rfl

end Blobs
